import Mathlib

/-!
Verification of the bind9stats-graphite polling/rate/emit pipeline
(`bind9stats-graphite.py`), shallowly embedded in Lean.

Conventions of the embedding:
* Python floats are modelled as exact rationals (`ℚ`); Python integers as `ℤ`.
* Python exceptions are modelled with `Except`: an operation that can raise
  returns `Except PyErr _`.  A raised-and-uncaught exception is `.error`.
* The mutable per-object attributes of `Bind9Stats` and `Bind2Graphite`
  become explicit state records passed in and out.
* Network and XML I/O is modelled by explicit parameters: the outcome of a
  fetch, the pre-extracted node lists of a parsed XML document, and the
  per-connection behaviour of `socket.send`.
-/

namespace B9G

/-- Python exceptions that the embedded code can raise. -/
inductive PyErr where
  | zeroDivisionError
  | typeError
  | parseError
deriving DecidableEq

/-- Result of `compute_statvalue`: either the textual sentinel string
(written as `nan` in the source) or a float value. -/
inductive GValue where
  | nan
  | num (q : ℚ)
deriving DecidableEq

/-- `self.statsdb`: mapping from fully qualified stat name to the stored raw
value of the previous reading (the source stores the raw text; values here
are the rationals that text denotes). -/
def DB : Type := String → Option ℚ

/-- `self.statsdb[name] = val` (dictionary assignment). -/
def updateDb (db : DB) (name : String) (val : ℚ) : DB :=
  fun m => if m = name then some val else db m

/-- `Bind2Graphite.compute_statvalue(self, name, val)`.

Source (lines 451-460):
if the key is absent, the result is the string sentinel and the raw value is
stored; otherwise the rate is `(float(val) - float(statsdb[name])) / time_delta`,
clamped to the sentinel when negative, and the raw value is stored afterwards.
A `time_delta` of `None` makes the division raise `TypeError`; a `time_delta`
of zero raises `ZeroDivisionError` (both before the store executes). -/
def compute_statvalue (time_delta : Option ℚ) (db : DB) (name : String) (val : ℚ) :
    Except PyErr (GValue × DB) :=
  match db name with
  | none => .ok (.nan, updateDb db name val)
  | some prior =>
    match time_delta with
    | none => .error .typeError
    | some d =>
      if d = 0 then .error .zeroDivisionError
      else
        let gvalue := (val - prior) / d
        .ok (if gvalue < 0 then .nan else .num gvalue, updateDb db name val)

/-- Python `round()` on an exact rational: round half to even. -/
def pyRound (x : ℚ) : ℤ :=
  if Int.fract x < 1/2 then ⌊x⌋
  else if 1/2 < Int.fract x then ⌊x⌋ + 1
  else if ⌊x⌋ % 2 = 0 then ⌊x⌋ else ⌊x⌋ + 1

/-- Python `a % b` for rationals (result has the sign of `b`;
used here only with positive `b`). -/
def pymod (a b : ℚ) : ℚ := a - b * ⌊a / b⌋

/-- Value of `self.adjust` after `compute_graphite_timestamp`. -/
inductive Adjust where
  | blank
  | plus
  | minus
  | question
deriving DecidableEq

/-- `Bind9Stats.compute_graphite_timestamp` (lines 345-361), as a function of
the polling interval, the wall-clock timestamp just recorded, and the previous
aligned timestamp; returns the new `g_timestamp` and `adjust` flag.
(The caller also stores the result into `g_timestamp_last`.) -/
def compute_graphite_timestamp (poll_interval : ℤ) (timestamp : ℚ)
    (g_timestamp_last : Option ℤ) : ℤ × Adjust :=
  let g := pyRound (timestamp / (poll_interval : ℚ)) * poll_interval
  match g_timestamp_last with
  | none => (g, .blank)
  | some prev =>
    let difference := g - prev
    if difference = 0 then (g + poll_interval, .plus)
    else if difference = poll_interval then (g, .blank)
    else if difference = 2 * poll_interval then (g - poll_interval, .minus)
    else (g, .question)

/-- Iterate the timestamp aligner over a sequence of wall-clock reads,
threading `g_timestamp_last` exactly as successive `poll()` calls do,
and collect the aligned outputs. -/
def alignRun (poll_interval : ℤ) (g_timestamp_last : Option ℤ) :
    List ℚ → List ℤ
  | [] => []
  | t :: ts =>
    let g := (compute_graphite_timestamp poll_interval t g_timestamp_last).1
    g :: alignRun poll_interval (some g) ts

/-- The `compensation_time` computed in `Bind2Graphite.sleep_time`
(lines 539-543): `2 * (time_delta % poll_interval)` when the previous
inter-poll delta exceeded the interval, else zero. -/
def compensation_time (time_delta : Option ℚ) (poll_interval : ℚ) : ℚ :=
  match time_delta with
  | none => 0
  | some td => if poll_interval < td then 2 * pymod td poll_interval else 0

/-- `Bind2Graphite.sleep_time(self, elapsed)` (lines 539-548). -/
def sleep_time (time_delta : Option ℚ) (poll_interval elapsed : ℚ) : ℚ :=
  (if elapsed ≤ poll_interval then poll_interval - elapsed
   else poll_interval - pymod elapsed poll_interval)
  - compensation_time time_delta poll_interval

/-- `dot2underscore` (line 260): replace periods with underscores. -/
def dot2underscore (instring : String) : String :=
  instring.map (fun c => if c = '.' then '_' else c)

/-- A parsed XML statistics document, abstracted to the node data the
program extracts from it: `counters loc` are the `(name attribute, text)`
pairs of `tree.findall(loc)` for ordinary counter tables; `memorySummary loc`
is `tree.find(loc)` (absent node modelled as `none`) with its children as
`(tag, text)` pairs; `cachedb loc` are the `(name-child text, counter-child
text)` pairs of the cache-database variant; `boot_time_since` and
`config_time_since` are the `timestring2since` values of the corresponding
server nodes; `zones` lists `(name attribute, type-child text, serial)` of
the default view.  Location predicates of the source XPath strings are
abbreviated to plain path keys. -/
structure XmlTree where
  counters : String → List (String × ℚ)
  memorySummary : String → Option (List (String × ℚ))
  cachedb : String → List (String × ℚ)
  boot_time_since : GValue
  config_time_since : GValue
  zones : List (String × String × ℚ)

/-- `stattype` field of a graph configuration. -/
inductive StatType where
  | counter
  | memory
  | cachedbT
deriving DecidableEq

/-- `metrictype` field of a graph configuration. -/
inductive MetricType where
  | derive
  | gauge
deriving DecidableEq

/-- One entry of `Graphs.params`. -/
structure GraphConfig where
  enable : Bool
  stattype : StatType
  metrictype : MetricType
  location : String

/-- The `METRICS` enable flags after argument processing. -/
structure Metrics where
  auth : Bool
  res : Bool
  bind : Bool
  zone : Bool
  memory : Bool
  socket : Bool

/-- `Graphs.params` (lines 135-222), as a function of the metric enable
flags. -/
def graphs_params (m : Metrics) : List (String × GraphConfig) :=
  [ ("dns_opcode_in",
      ⟨m.auth || m.res, .counter, .derive, "server/counters/opcode/counter"⟩),
    ("dns_qtypes_in",
      ⟨m.auth || m.res, .counter, .derive, "server/counters/qtype/counter"⟩),
    ("dns_server_stats",
      ⟨m.auth || m.res, .counter, .derive, "server/counters/nsstat/counter"⟩),
    ("dns_cachedb",
      ⟨m.res, .cachedbT, .gauge, "views/view/cache/rrset"⟩),
    ("dns_resolver_stats",
      ⟨false, .counter, .derive, "server/counters/resstat/counter"⟩),
    ("dns_resolver_stats_qtype",
      ⟨m.res, .counter, .derive, "views/view/counters/resqtype/counter"⟩),
    ("dns_resolver_stats_defview",
      ⟨m.res, .counter, .derive, "views/view/counters/resstats/counter"⟩),
    ("dns_cachestats",
      ⟨m.res && m.memory, .counter, .derive, "views/view/counters/cachestats/counter"⟩),
    ("dns_cache_mem",
      ⟨m.res && m.memory, .counter, .gauge, "views/view/counters/cachestats/counter"⟩),
    ("dns_socket_activity",
      ⟨m.socket, .counter, .gauge, "server/counters/sockstat/counter"⟩),
    ("dns_socket_stats",
      ⟨m.socket, .counter, .derive, "server/counters/sockstat/counter"⟩),
    ("dns_zone_stats",
      ⟨m.auth, .counter, .derive, "server/counters/zonestat/counter"⟩),
    ("dns_memory_usage",
      ⟨(m.auth || m.res) && m.memory, .memory, .gauge, "memory/summary"⟩),
    ("dns_adbstat",
      ⟨false, .counter, .gauge, "views/view/counters/adbstat/counter"⟩) ]

/-- Note: the source dispatches `dns_cachedb` through `getdata_cachedb`
(stattype `cachedb`) and `dns_memory_usage` through `getdata_memory`
(stattype `memory`); every other entry uses the plain counter walk.
`Bind9Stats.getdata` / `getdata_memory` / `getdata_cachedb`
(lines 376-428): extract `(key, value)` pairs for one graph. -/
def getdata (tree : XmlTree) (gc : GraphConfig) : List (String × ℚ) :=
  match gc.stattype with
  | .memory => (tree.memorySummary gc.location).getD []
  | .cachedbT => tree.cachedb gc.location
  | .counter => tree.counters gc.location

/-- One output line built by `add_metric` (line 462): the metric path, the
value, and the `g_timestamp` appended to the line. -/
structure Line where
  path : String
  value : GValue
  tstamp : Option ℤ
deriving DecidableEq

/-- `Bind2Graphite.add_metric` (lines 462-465): append one line to the
accumulated cycle data. -/
def add_metric (name : String) (g_timestamp : Option ℤ) (data : List Line)
    (category stat : String) (value : GValue) : List Line :=
  data ++ [⟨name ++ "." ++ category ++ "." ++ stat, value, g_timestamp⟩]

/-- `Bind2Graphite.generate_bind_data` (lines 467-474). -/
def generate_bind_data (name : String) (g_timestamp : Option ℤ)
    (tree : XmlTree) (data : List Line) : List Line :=
  add_metric name g_timestamp
    (add_metric name g_timestamp data "bind_info" "boot-time" tree.boot_time_since)
    "bind_info" "config-time" tree.config_time_since

/-- `Bind2Graphite.generate_zone_data` (lines 476-485): for every non-builtin
zone, run the serial through `compute_statvalue` under key
`bind_zones.<zonename>`. -/
def generate_zone_data (name : String) (g_timestamp : Option ℤ)
    (time_delta : Option ℚ) :
    List (String × String × ℚ) → DB → List Line → Except PyErr (DB × List Line)
  | [], db, data => .ok (db, data)
  | (zname, ztype, zserial) :: rest, db, data =>
    if ztype = "builtin" then
      generate_zone_data name g_timestamp time_delta rest db data
    else
      let zonename := dot2underscore zname
      let statname := "bind_zones" ++ "." ++ zonename
      match compute_statvalue time_delta db statname zserial with
      | .error e => .error e
      | .ok (v, db2) =>
        generate_zone_data name g_timestamp time_delta rest db2
          (add_metric name g_timestamp data "bind_zones" zonename v)

/-- Inner loop of `Bind2Graphite.generate_graph_data` (lines 494-500) over
the items of one graph: gauges pass the raw value through, DERIVE metrics go
through `compute_statvalue` under key `<graphname>.<key>`. -/
def generate_graph_items (name : String) (g_timestamp : Option ℤ)
    (time_delta : Option ℚ) (graphname : String) (metrictype : MetricType) :
    List (String × ℚ) → DB → List Line → Except PyErr (DB × List Line)
  | [], db, data => .ok (db, data)
  | (key, value) :: rest, db, data =>
    match metrictype with
    | .gauge =>
      generate_graph_items name g_timestamp time_delta graphname metrictype rest db
        (add_metric name g_timestamp data graphname key (.num value))
    | .derive =>
      let statname := graphname ++ "." ++ key
      match compute_statvalue time_delta db statname value with
      | .error e => .error e
      | .ok (gv, db2) =>
        generate_graph_items name g_timestamp time_delta graphname metrictype rest db2
          (add_metric name g_timestamp data graphname key gv)

/-- `Bind2Graphite.generate_graph_data` (lines 487-500): walk the enabled
graphs of `graphs.params`. -/
def generate_graph_data (name : String) (g_timestamp : Option ℤ)
    (time_delta : Option ℚ) (tree : XmlTree) :
    List (String × GraphConfig) → DB → List Line → Except PyErr (DB × List Line)
  | [], db, data => .ok (db, data)
  | (graphname, gc) :: rest, db, data =>
    if gc.enable then
      match generate_graph_items name g_timestamp time_delta graphname
          gc.metrictype (getdata tree gc) db data with
      | .error e => .error e
      | .ok (db2, data2) =>
        generate_graph_data name g_timestamp time_delta tree rest db2 data2
    else
      generate_graph_data name g_timestamp time_delta tree rest db data

/-- `Bind2Graphite.generate_all_data` (lines 502-508): `reset()` clears the
cycle buffer, then bind info, zone serials and graph data are appended. -/
def generate_all_data (m : Metrics) (name : String) (g_timestamp : Option ℤ)
    (time_delta : Option ℚ) (tree : XmlTree) (db : DB) :
    Except PyErr (DB × List Line) :=
  let data0 : List Line := []
  let data1 := if m.bind then generate_bind_data name g_timestamp tree data0 else data0
  match (if m.zone then generate_zone_data name g_timestamp time_delta tree.zones db data1
         else .ok (db, data1)) with
  | .error e => .error e
  | .ok (db2, data2) =>
    generate_graph_data name g_timestamp time_delta tree (graphs_params m) db2 data2

/-- Mutable attributes of a `Bind9Stats` object (lines 320-333). -/
structure B9State where
  tree : Option XmlTree
  poll_duration : Option ℚ
  timestamp : Option ℚ
  g_timestamp : Option ℤ
  g_timestamp_last : Option ℤ
  adjust : Adjust
  last_poll : Option ℚ
  time_delta : Option ℚ

/-- `Bind9Stats.poll` (lines 335-343).  `now` is the `time.time()` read;
`fetched` is the `(tree, elapsed)` pair returned by a non-raising
`get_xml_etree_root` call.  On a failed fetch (`tree = none`) neither
`last_poll` nor `time_delta` is touched; `g_timestamp` bookkeeping happens
unconditionally before the fetch. -/
def poll (poll_interval : ℤ) (now : ℚ) (fetched : Option XmlTree × Option ℚ)
    (st : B9State) : B9State :=
  let ga := compute_graphite_timestamp poll_interval now st.g_timestamp_last
  let st2 : B9State :=
    { st with
      timestamp := some now
      g_timestamp := some ga.1
      adjust := ga.2
      g_timestamp_last := some ga.1
      tree := fetched.1
      poll_duration := fetched.2 }
  match fetched.1, st.last_poll with
  | some _, some lp => { st2 with time_delta := some (now - lp), last_poll := some now }
  | some _, none => { st2 with last_poll := some now }
  | none, _ => st2

/-- Mutable attributes of a `Bind2Graphite` object that the poll loop uses
(lines 435-446): the embedded `Bind9Stats` state, the rate state `statsdb`,
and the serialized cycle batch `graphite_data`. -/
structure B2GState where
  stats : B9State
  statsdb : DB
  graphite_data : List Line

/-- `Bind2Graphite.single_run` (lines 528-537).  Returns the new state and,
when the cycle produced a batch, the lines generated and handed to
`send_graphite` (or printed); `none` means the cycle emitted nothing.
The network delivery of the batch is modelled separately by
`send_graphite` below. -/
def single_run (m : Metrics) (name : String) (poll_interval : ℤ) (now : ℚ)
    (fetched : Option XmlTree × Option ℚ) (st : B2GState) :
    Except PyErr (B2GState × Option (List Line)) :=
  let stats2 := poll poll_interval now fetched st.stats
  match stats2.tree with
  | none => .ok ({ st with stats := stats2 }, none)
  | some tree =>
    match generate_all_data m name stats2.g_timestamp stats2.time_delta tree
        st.statsdb with
    | .error e => .error e
    | .ok (db2, data2) =>
      .ok (⟨stats2, db2, data2⟩, some data2)

/-- Outcome of the `urlopen` + `et.parse` pipeline inside
`get_xml_etree_root`, as seen by the embedding: either `urlopen` raised
`URLError`, or it returned a body which the parser either parses to a tree
or rejects as malformed. -/
inductive FetchOutcome where
  | urlError
  | response (p : Option XmlTree)

/-- `get_xml_etree_root(url, timeout)` (lines 265-279).  The `try` block
covers only `urlopen`; `URLError` is caught and mapped to `(None, None)`.
`et.parse` runs outside the `try`, so a malformed body raises a parse
error that propagates to the caller. -/
def get_xml_etree_root (outcome : FetchOutcome) (elapsed : ℚ) :
    Except PyErr (Option XmlTree × Option ℚ) :=
  match outcome with
  | .urlError => .ok (none, none)
  | .response none => .error .parseError
  | .response (some t) => .ok (some t, some elapsed)

/-- One return of `sock.send`: either the number of octets accepted by the
transport, or a raised `OSError`. -/
inductive SendRes where
  | sent (n : ℕ)
  | oserr
deriving DecidableEq

/-- A connected socket, identified with the behaviour of the (at most one)
`send_socket` call that will run on it. -/
structure Conn where
  behavior : List SendRes

/-- The environment seen by `connect_host`: the outcomes of successive
connection attempts (`none` = `connect()` failed). -/
structure NetEnv where
  conns : List (Option Conn)

/-- `connect_host` / `connect_graphite` (lines 282-296, 510-511): take the
next connection outcome from the environment.  An exhausted environment
behaves as a failed connect. -/
def connect_graphite : NetEnv → Option Conn × NetEnv
  | ⟨[]⟩ => (none, ⟨[]⟩)
  | ⟨c :: rest⟩ => (c, ⟨rest⟩)

/-- `send_socket(sock, message)` (lines 299-313): loop sending the rest of
the message; a zero `send` return or an `OSError` is a failure.  Returns
whether the whole message was sent, and how many octets the transport
accepted.  A behaviour trace that ends with octets still unsent is modelled
as a dead connection (failure). -/
def send_socket (msglen : ℕ) : List SendRes → ℕ → Bool × ℕ
  | [], octets_sent =>
    if msglen ≤ octets_sent then (true, octets_sent) else (false, octets_sent)
  | r :: rest, octets_sent =>
    if msglen ≤ octets_sent then (true, octets_sent)
    else
      match r with
      | .oserr => (false, octets_sent)
      | .sent 0 => (false, octets_sent)
      | .sent (n+1) => send_socket msglen rest (octets_sent + (n+1))

/-- Events observable during one `send_graphite` call. -/
inductive EmitEv where
  | connOk
  | connFail
  | sendOk
  | sendFail
  | closeSock
  | backoff200ms
deriving DecidableEq

/-- Result of one `send_graphite` call: the event trace, the socket left in
`self.socket`, and how many complete copies of the batch were delivered
(successful `send_socket` calls). -/
structure EmitOut where
  events : List EmitEv
  socket : Option Conn
  delivered : ℕ

/-- Body of `send_graphite` once a socket is at hand (lines 518-526): try
the send; on failure close the socket, sleep 0.2 s, reconnect, and retry
exactly once; a second failure only logs. -/
def send_graphite_after_connect (msglen : ℕ) (c1 : Conn) (evs : List EmitEv)
    (env : NetEnv) : EmitOut × NetEnv :=
  if (send_socket msglen c1.behavior 0).1 then
    (⟨evs ++ [.sendOk], some c1, 1⟩, env)
  else
    let evs2 := evs ++ [.sendFail, .closeSock, .backoff200ms]
    match connect_graphite env with
    | (none, env2) => (⟨evs2 ++ [.connFail], none, 0⟩, env2)
    | (some c2, env2) =>
      if (send_socket msglen c2.behavior 0).1 then
        (⟨evs2 ++ [.connOk, .sendOk], some c2, 1⟩, env2)
      else
        (⟨evs2 ++ [.connOk, .sendFail], some c2, 0⟩, env2)

/-- `Bind2Graphite.send_graphite` (lines 513-526): lazily connect when no
socket is open (a failed lazy connect drops the batch silently), then run
the send-with-one-retry body. -/
def send_graphite (msglen : ℕ) (socket : Option Conn) (env : NetEnv) :
    EmitOut × NetEnv :=
  match socket with
  | none =>
    match connect_graphite env with
    | (none, env2) => (⟨[.connFail], none, 0⟩, env2)
    | (some c1, env2) => send_graphite_after_connect msglen c1 [.connOk] env2
  | some c1 => send_graphite_after_connect msglen c1 [] env

/-- Example rate state holding one prior: key `k` was last read as `10`. -/
def exDb : DB := fun n => if n = "k" then some 10 else none

/-- Example empty rate state (process start). -/
def exDbEmpty : DB := fun _ => none

/-- Example parsed statistics document with no counters. -/
def exTree : XmlTree :=
  ⟨fun _ => [], fun _ => none, fun _ => [], .nan, .nan, []⟩

/-- Example `Bind9Stats` state whose last successful poll was at time 3. -/
def exStats : B9State :=
  ⟨none, none, none, none, none, .blank, some 3, none⟩

/-- Example `Bind2Graphite` state wrapping `exStats`. -/
def exB2G : B2GState := ⟨exStats, exDbEmpty, []⟩

/-- Example metric enable flags: everything disabled. -/
def exMetrics : Metrics := ⟨false, false, false, false, false, false⟩

/-- Claim C1, counterexample: with a prior of `10` for key `k` and a current
reading of `5` under delta `1`, `compute_statvalue` returns the NaN sentinel
even though the key HAS a prior entry, so "NaN iff the key is absent" fails
in the only-if direction. -/
theorem compute_statvalue_nan_iff_cex :
    exDb "k" = some 10 ∧
    compute_statvalue (some 1) exDb "k" 5 = .ok (.nan, updateDb exDb "k" 5) := by
  constructor
  · rfl
  · unfold compute_statvalue exDb
    norm_num

/-- Claim C1 (amended): `compute_statvalue` returns the NaN sentinel (and
stores the raw value) when the key is absent from `statsdb`; when the key has
a prior `a` and the delta `d` is nonzero, the result is the NaN sentinel iff
the computed rate `(v - a) / d` is negative. -/
theorem compute_statvalue_first_seen (db : DB) (td : Option ℚ) (k : String)
    (v a d : ℚ) :
    (db k = none → compute_statvalue td db k v = .ok (.nan, updateDb db k v)) ∧
    (db k = some a → d ≠ 0 →
      (compute_statvalue (some d) db k v = .ok (.nan, updateDb db k v) ↔
        (v - a) / d < 0)) := by
  constructor
  · intro h
    unfold compute_statvalue
    rw [h]
  · intro h hd
    unfold compute_statvalue
    rw [h]
    dsimp only
    rw [if_neg hd]
    by_cases hc : (v - a) / d < 0
    · simp [hc]
    · simp [hc]

/-- Claim C1, witness: both branches of `compute_statvalue_first_seen`
evaluated at concrete inputs. -/
theorem compute_statvalue_first_seen_witness :
    (exDbEmpty "q" = none ∧
      compute_statvalue (some 2) exDbEmpty "q" 7 = .ok (.nan, updateDb exDbEmpty "q" 7)) ∧
    (exDb "k" = some 10 ∧ (2 : ℚ) ≠ 0 ∧
      (compute_statvalue (some 2) exDb "k" 4 = .ok (.nan, updateDb exDb "k" 4) ↔
        ((4 : ℚ) - 10) / 2 < 0)) :=
  ⟨⟨rfl, (compute_statvalue_first_seen exDbEmpty (some 2) "q" 7 0 2).1 rfl⟩,
   ⟨rfl, by norm_num,
    (compute_statvalue_first_seen exDb (some 2) "k" 4 10 2).2 rfl (by norm_num)⟩⟩

/-- Claim C2, counterexample: with prior `a = 10`, current `b = 5` and delta
`d = 1`, the code returns the NaN sentinel, not `(b - a) / d = -5`, so the
unrestricted "returns `(b - a) / d`" fails. -/
theorem compute_statvalue_rate_cex :
    exDb "k" = some 10 ∧
    (compute_statvalue (some 1) exDb "k" 5).map Prod.fst = .ok .nan ∧
    GValue.nan ≠ .num ((5 - 10) / 1) := by
  refine ⟨rfl, ?_, by simp⟩
  unfold compute_statvalue exDb
  norm_num [Except.map]

/-- Claim C2 (amended): with a prior `a` for the key and delta `d > 0`,
`compute_statvalue` returns `(b - a) / d` whenever `a ≤ b` (a negative
quotient is clamped to the NaN sentinel instead); the stored prior is
overwritten with `b` regardless of the outcome; and feeding the same value
`a` again yields rate `0`. -/
theorem compute_statvalue_rate (db : DB) (k : String) (a b d : ℚ)
    (hk : db k = some a) (hd : 0 < d) :
    (a ≤ b → compute_statvalue (some d) db k b =
      .ok (.num ((b - a) / d), updateDb db k b)) ∧
    (∃ g, compute_statvalue (some d) db k b = .ok (g, updateDb db k b) ∧
      updateDb db k b k = some b) ∧
    compute_statvalue (some d) db k a = .ok (.num 0, updateDb db k a) := by
  refine ⟨?_, ?_, ?_⟩
  · intro hab
    unfold compute_statvalue
    rw [hk]
    dsimp only
    rw [if_neg hd.ne', if_neg (not_lt.2 (div_nonneg (sub_nonneg.2 hab) hd.le))]
  · unfold compute_statvalue
    rw [hk]
    dsimp only
    rw [if_neg hd.ne']
    exact ⟨_, rfl, by simp [updateDb]⟩
  · unfold compute_statvalue
    rw [hk]
    dsimp only
    rw [if_neg hd.ne', sub_self, zero_div, if_neg (lt_irrefl 0)]

/-- Claim C2, witness: `compute_statvalue_rate` at prior `10`, current `16`,
delta `3`. -/
theorem compute_statvalue_rate_witness :
    exDb "k" = some 10 ∧ (0 : ℚ) < 3 ∧
    ((10 : ℚ) ≤ 16 → compute_statvalue (some 3) exDb "k" 16 =
      .ok (.num ((16 - 10) / 3), updateDb exDb "k" 16)) ∧
    (∃ g, compute_statvalue (some 3) exDb "k" 16 = .ok (g, updateDb exDb "k" 16) ∧
      updateDb exDb "k" 16 "k" = some 16) ∧
    compute_statvalue (some 3) exDb "k" 10 = .ok (.num 0, updateDb exDb "k" 10) :=
  ⟨rfl, by norm_num, compute_statvalue_rate exDb "k" 10 16 3 rfl (by norm_num)⟩

/-- Claim C3: at a zero time delta with a prior entry present, the division
in `compute_statvalue` is unguarded and raises `ZeroDivisionError` instead of
resolving to the NaN sentinel. -/
theorem compute_statvalue_zero_delta_raises :
    compute_statvalue (some 0) exDb "k" 12 = .error .zeroDivisionError := by
  unfold compute_statvalue exDb
  norm_num

/-- Claim C10: with a prior entry `a`, a current reading `b < a` and a
positive delta, `compute_statvalue` clamps the negative rate to the NaN
sentinel while still overwriting the stored prior with `b`. -/
theorem compute_statvalue_negative_clamp (db : DB) (k : String) (a b d : ℚ)
    (hk : db k = some a) (hd : 0 < d) (hba : b < a) :
    compute_statvalue (some d) db k b = .ok (.nan, updateDb db k b) ∧
    updateDb db k b k = some b := by
  constructor
  · unfold compute_statvalue
    rw [hk]
    dsimp only
    rw [if_neg hd.ne', if_pos (div_neg_of_neg_of_pos (sub_neg.2 hba) hd)]
  · simp [updateDb]

/-- Claim C10, witness: `compute_statvalue_negative_clamp` at prior `10`,
current `5`, delta `2`. -/
theorem compute_statvalue_negative_clamp_witness :
    exDb "k" = some 10 ∧ (0 : ℚ) < 2 ∧ (5 : ℚ) < 10 ∧
    (compute_statvalue (some 2) exDb "k" 5 = .ok (.nan, updateDb exDb "k" 5) ∧
      updateDb exDb "k" 5 "k" = some 5) :=
  ⟨rfl, by norm_num, by norm_num,
   compute_statvalue_negative_clamp exDb "k" 10 5 2 rfl (by norm_num) (by norm_num)⟩

/-- Helper: Python rounding lands within half a unit of its argument. -/
theorem pyRound_close (x : ℚ) : |(pyRound x : ℚ) - x| ≤ 1/2 := by
  have h0 : (0 : ℚ) ≤ Int.fract x := Int.fract_nonneg x
  have h1 : Int.fract x < 1 := Int.fract_lt_one x
  have hfl : x - (⌊x⌋ : ℚ) = Int.fract x := Int.self_sub_floor x
  unfold pyRound
  split_ifs with hA hB hC
  · rw [abs_le]
    constructor <;> linarith
  · push_cast
    rw [abs_le]
    constructor <;> linarith
  · rw [abs_le]
    constructor <;> linarith
  · push_cast
    rw [abs_le]
    have : Int.fract x = 1/2 := by linarith
    constructor <;> linarith

/-- Claim C6: with a previous aligned timestamp `p`, the aligner first rounds
the wall clock to the nearest interval multiple `r` (within half an interval
of the wall clock), then: equal to `p` means advance one interval (flag `+`);
ahead by exactly one interval is accepted as-is; ahead by exactly two
intervals is pulled back one interval (flag `-`); any other difference is
accepted as-is and flagged `?`. -/
theorem compute_graphite_timestamp_cases (i p r : ℤ) (t : ℚ) (hi : 0 < i)
    (hr : r = pyRound (t / (i : ℚ)) * i) :
    |((r : ℤ) : ℚ) - t| ≤ (i : ℚ) / 2 ∧
    (r = p → compute_graphite_timestamp i t (some p) = (r + i, .plus)) ∧
    (r - p = i → compute_graphite_timestamp i t (some p) = (r, .blank)) ∧
    (r - p = 2 * i → compute_graphite_timestamp i t (some p) = (r - i, .minus)) ∧
    (r ≠ p → r - p ≠ i → r - p ≠ 2 * i →
      compute_graphite_timestamp i t (some p) = (r, .question)) := by
  have hiq : (0 : ℚ) < (i : ℚ) := by exact_mod_cast hi
  refine ⟨?_, ?_, ?_, ?_, ?_⟩
  · have hrq : ((r : ℤ) : ℚ) = (pyRound (t / (i : ℚ)) : ℚ) * (i : ℚ) := by
      rw [hr]
      push_cast
      ring
    have key : (pyRound (t / (i : ℚ)) : ℚ) * (i : ℚ) - t =
        ((pyRound (t / (i : ℚ)) : ℚ) - t / (i : ℚ)) * (i : ℚ) := by
      field_simp
    rw [hrq, key, abs_mul, abs_of_pos hiq]
    have hb := mul_le_mul_of_nonneg_right (pyRound_close (t / (i : ℚ))) hiq.le
    linarith
  · intro h2
    unfold compute_graphite_timestamp
    dsimp only
    rw [← hr, if_pos (by omega : r - p = 0)]
  · intro h3
    unfold compute_graphite_timestamp
    dsimp only
    rw [← hr, if_neg (by omega : ¬ r - p = 0), if_pos h3]
  · intro h4
    unfold compute_graphite_timestamp
    dsimp only
    rw [← hr, if_neg (by omega : ¬ r - p = 0),
      if_neg (by omega : ¬ r - p = i), if_pos h4]
  · intro h5a h5b h5c
    unfold compute_graphite_timestamp
    dsimp only
    rw [← hr, if_neg (by omega : ¬ r - p = 0), if_neg h5b, if_neg h5c]

/-- Claim C6, witness: interval 60, previous aligned value 540, wall clock
573 rounding to 600 = 540 + one interval, accepted as-is. -/
theorem compute_graphite_timestamp_cases_witness :
    (0 : ℤ) < 60 ∧ (600 : ℤ) = pyRound ((573 : ℚ) / 60) * 60 ∧
    |((600 : ℤ) : ℚ) - 573| ≤ (60 : ℚ) / 2 ∧
    compute_graphite_timestamp 60 573 (some 540) = (600, .blank) := by
  have hr : (600 : ℤ) = pyRound ((573 : ℚ) / 60) * 60 := by
    norm_num [pyRound, Int.fract]
  have h := compute_graphite_timestamp_cases 60 540 600 573 (by decide) hr
  exact ⟨by decide, hr, h.1, h.2.2.1 (by decide)⟩

/-- Claim C7, counterexample: twelve wall-clock reads, each separated by 54
seconds (within 10 percent of the 60-second interval), drive the aligner
through repeated `+` bumps until a `?` step emits 1140 right after 1200: the
aligned sequence is not monotonically non-decreasing, and the final two calls
have identical rounded times (1140) yet the second output is one interval
BELOW the first rather than bumped above it. -/
theorem alignRun_nonmonotone_cex :
    List.Chain' (fun a b => b - a = 54)
      [(573 : ℚ), 627, 681, 735, 789, 843, 897, 951, 1005, 1059, 1113, 1167] ∧
    alignRun 60 none
      [(573 : ℚ), 627, 681, 735, 789, 843, 897, 951, 1005, 1059, 1113, 1167] =
      [600, 660, 720, 780, 840, 900, 960, 1020, 1080, 1140, 1200, 1140] ∧
    ¬ List.Chain' (fun a b : ℤ => a ≤ b)
      [600, 660, 720, 780, 840, 900, 960, 1020, 1080, 1140, 1200, 1140] := by
  refine ⟨by norm_num [List.chain'_cons], ?_, by norm_num [List.chain'_cons]⟩
  norm_num [alignRun, compute_graphite_timestamp, pyRound, Int.fract]

/-- Claim C7 (amended): for a positive interval, every aligner step whose
adjustment flag is not `?` produces exactly the previous aligned value plus
one interval (hence strictly increases), and no step ever repeats the
previous aligned value — in particular two back-to-back calls with identical
rounded times never yield equal outputs.  (A `?`-flagged step can move the
output backwards, so the sequence as a whole need not be monotone.) -/
theorem align_step_increment (i p : ℤ) (t : ℚ) (hi : 0 < i) :
    ((compute_graphite_timestamp i t (some p)).2 ≠ .question →
      (compute_graphite_timestamp i t (some p)).1 = p + i) ∧
    (compute_graphite_timestamp i t (some p)).1 ≠ p := by
  unfold compute_graphite_timestamp
  dsimp only
  split_ifs with h1 h2 h3
  · exact ⟨fun _ => by omega, by omega⟩
  · exact ⟨fun _ => by omega, by omega⟩
  · exact ⟨fun _ => by omega, by omega⟩
  · exact ⟨fun hq => absurd rfl hq, by omega⟩

/-- Claim C7, witness: `align_step_increment` at interval 60, previous 540,
wall clock 573. -/
theorem align_step_increment_witness :
    (0 : ℤ) < 60 ∧
    ((compute_graphite_timestamp 60 573 (some 540)).2 ≠ .question →
      (compute_graphite_timestamp 60 573 (some 540)).1 = 540 + 60) ∧
    (compute_graphite_timestamp 60 573 (some 540)).1 ≠ 540 :=
  ⟨by decide, align_step_increment 60 540 573 (by decide)⟩

/-- Claim C8, counterexample: with a previous inter-poll delta of 119 s, a
60 s interval and a 1 s cycle, `sleep_time` returns `59 - 118 = -59`: the
value handed to `time.sleep` IS negative (there is no `max(0, _)` clamp in
the code). -/
theorem sleep_time_negative_cex : sleep_time (some 119) 60 1 < 0 := by
  norm_num [sleep_time, compensation_time, pymod]

/-- Claim C8 (amended): the computed sleep equals
`pollInterval - (elapsed mod pollInterval) - compensation` for every
nonnegative `elapsed` other than exactly one interval (where the code's
`elapsed <= interval` branch gives `0 - compensation` instead), with
`compensation = 2 * (time_delta mod interval)` when the previous delta
exceeded the interval and `0` otherwise; the result is not clamped at zero
and can be negative. -/
theorem sleep_time_formula (td : Option ℚ) (i e : ℚ) (hi : 0 < i) (he : 0 ≤ e)
    (hne : e ≠ i) :
    sleep_time td i e = i - pymod e i - compensation_time td i ∧
    sleep_time td i i = - compensation_time td i := by
  constructor
  · unfold sleep_time
    by_cases hle : e ≤ i
    · have hlt : e < i := lt_of_le_of_ne hle hne
      have h0 : ⌊e / i⌋ = 0 := by
        rw [Int.floor_eq_zero_iff]
        exact ⟨div_nonneg he hi.le, (div_lt_one hi).2 hlt⟩
      rw [if_pos hle]
      unfold pymod
      rw [h0]
      push_cast
      ring_nf
    · rw [if_neg hle]
  · unfold sleep_time
    rw [if_pos le_rfl]
    ring_nf

/-- Claim C8, witness: `sleep_time_formula` at no stored delta, interval 60,
elapsed 30. -/
theorem sleep_time_formula_witness :
    (0 : ℚ) < 60 ∧ (0 : ℚ) ≤ 30 ∧ (30 : ℚ) ≠ 60 ∧
    (sleep_time none 60 30 = 60 - pymod 30 60 - compensation_time none 60 ∧
      sleep_time none 60 60 = - compensation_time none 60) :=
  ⟨by norm_num, by norm_num, by norm_num,
   sleep_time_formula none 60 30 (by norm_num) (by norm_num) (by norm_num)⟩

/-- Claim C9, counterexample: a response whose body does not parse makes
`get_xml_etree_root` raise the parse error to its caller (the `try` block
covers only `urlopen`), instead of returning the absent document
`(None, None)` as claimed. -/
theorem get_xml_etree_root_malformed_cex :
    get_xml_etree_root (.response none) 1 = .error .parseError ∧
    (Except.error .parseError : Except PyErr (Option XmlTree × Option ℚ)) ≠
      .ok (none, none) :=
  ⟨rfl, by simp⟩

/-- Claim C9 (amended): on a network error or timeout surfacing as `URLError`
from `urlopen`, the fetcher returns the absent document `(None, None)` after
logging; a successfully parsed body yields the tree and the elapsed time; but
a malformed body raises a parse error to the caller because `et.parse` runs
outside the `try` block. -/
theorem get_xml_etree_root_spec (t : XmlTree) (e : ℚ) :
    get_xml_etree_root .urlError e = .ok (none, none) ∧
    get_xml_etree_root (.response (some t)) e = .ok (some t, some e) ∧
    get_xml_etree_root (.response none) e = .error .parseError :=
  ⟨rfl, rfl, rfl⟩

/-- Claim C4: a poll cycle whose fetch returned no document computes and
sends no samples (`single_run` returns before generating anything), leaves
`statsdb` and `last_poll` untouched, and a later successful poll therefore
computes its time delta back to the last successful poll time. -/
theorem single_run_failed_fetch_frame (m : Metrics) (name : String) (i : ℤ)
    (now t2 el : ℚ) (tr : XmlTree) (st : B2GState) (lp : ℚ)
    (h : st.stats.last_poll = some lp) :
    single_run m name i now (none, none) st =
      .ok ({ st with stats := poll i now (none, none) st.stats }, none) ∧
    ({ st with stats := poll i now (none, none) st.stats } : B2GState).statsdb =
      st.statsdb ∧
    (poll i now (none, none) st.stats).last_poll = some lp ∧
    (poll i t2 (some tr, some el) (poll i now (none, none) st.stats)).time_delta =
      some (t2 - lp) := by
  have h2 : (poll i now (none, none) st.stats).last_poll = some lp := h
  refine ⟨rfl, rfl, h2, ?_⟩
  generalize poll i now (none, none) st.stats = st1 at h2 ⊢
  unfold poll
  dsimp only
  rw [h2]

/-- Claim C4, witness: `single_run_failed_fetch_frame` on a state whose last
successful poll was at time 3; the failed cycle at time 5 emits nothing, and
the successful poll at time 70 gets delta 67. -/
theorem single_run_failed_fetch_frame_witness :
    exB2G.stats.last_poll = some 3 ∧
    (single_run exMetrics "host" 60 5 (none, none) exB2G =
      .ok ({ exB2G with stats := poll 60 5 (none, none) exB2G.stats }, none) ∧
    ({ exB2G with stats := poll 60 5 (none, none) exB2G.stats } : B2GState).statsdb =
      exB2G.statsdb ∧
    (poll 60 5 (none, none) exB2G.stats).last_poll = some 3 ∧
    (poll 60 70 (some exTree, some 1)
        (poll 60 5 (none, none) exB2G.stats)).time_delta = some (70 - 3)) :=
  ⟨rfl, single_run_failed_fetch_frame exMetrics "host" 60 5 70 1 exTree exB2G 3 rfl⟩

/-- Claim C5: when the first socket-level send of the batch fails (an
`OSError` or a zero-byte `send` return), `send_graphite` closes the socket,
backs off 200 ms, reconnects, and retries the whole batch exactly once: the
trace records exactly two send attempts; if the retry succeeds exactly one
copy of the batch is delivered, and if it fails nothing more happens — zero
copies, the batch is dropped, and the call returns normally. -/
theorem send_graphite_retry (msglen : ℕ) (c1 c2 : Conn) (env env2 : NetEnv)
    (h1 : (send_socket msglen c1.behavior 0).1 = false)
    (h2 : connect_graphite env = (some c2, env2)) :
    send_graphite msglen (some c1) env =
      (⟨[.sendFail, .closeSock, .backoff200ms, .connOk,
          if (send_socket msglen c2.behavior 0).1 then .sendOk else .sendFail],
        some c2,
        if (send_socket msglen c2.behavior 0).1 then 1 else 0⟩, env2) := by
  unfold send_graphite send_graphite_after_connect
  dsimp only
  rw [h1, h2]
  cases hc : (send_socket msglen c2.behavior 0).1 <;> simp [hc]

/-- Claim C5, witness: a first connection whose transport accepts zero bytes
(broken connection), then a reconnect that accepts the whole 5-byte batch:
exactly one copy delivered after close, backoff and reconnect; with a
reconnect that raises instead, zero copies are delivered and the call still
returns. -/
theorem send_graphite_retry_witness :
    (send_socket 5 [SendRes.sent 0] 0).1 = false ∧
    connect_graphite ⟨[some ⟨[SendRes.sent 5]⟩]⟩ = (some ⟨[SendRes.sent 5]⟩, ⟨[]⟩) ∧
    send_graphite 5 (some ⟨[SendRes.sent 0]⟩) ⟨[some ⟨[SendRes.sent 5]⟩]⟩ =
      (⟨[.sendFail, .closeSock, .backoff200ms, .connOk, .sendOk],
        some ⟨[SendRes.sent 5]⟩, 1⟩, ⟨[]⟩) ∧
    send_graphite 5 (some ⟨[SendRes.sent 0]⟩) ⟨[some ⟨[SendRes.oserr]⟩]⟩ =
      (⟨[.sendFail, .closeSock, .backoff200ms, .connOk, .sendFail],
        some ⟨[SendRes.oserr]⟩, 0⟩, ⟨[]⟩) := by
  have hok : (send_socket 5 [SendRes.sent 5] 0).1 = true := rfl
  have hbad : (send_socket 5 [SendRes.oserr] 0).1 = false := rfl
  refine ⟨rfl, rfl, ?_, ?_⟩
  · have h := send_graphite_retry 5 ⟨[SendRes.sent 0]⟩ ⟨[SendRes.sent 5]⟩
      ⟨[some ⟨[SendRes.sent 5]⟩]⟩ ⟨[]⟩ rfl rfl
    rw [h, hok]
    simp
  · have h := send_graphite_retry 5 ⟨[SendRes.sent 0]⟩ ⟨[SendRes.oserr]⟩
      ⟨[some ⟨[SendRes.oserr]⟩]⟩ ⟨[]⟩ rfl rfl
    rw [h, hbad]
    simp

end B9G
